import Mathlib

/-!
Shallow embedding of the bevy_irc session-orchestration layer.

The repository carries two generations of the same systems:
 * `src/src/systems.rs` + `src/src/components.rs` + `src/src/observers.rs`
   (marker components `Identifying`/`Registered`, `Sender`/`Stream`
   components, observer-based outbound dispatch), and
 * `src/src/lib.rs` (older: `Client`/`Identified`, direct sends,
   delta-based `join_and_part`).

Per-session state is embedded as a `Session` record whose boolean fields
mirror the presence of the marker/resource components on the entity, and
each system is embedded as a pure function from session state (plus the
environment inputs the system reads) to the new session state and the
list of protocol commands it emits.
-/

namespace BevyIrc

/-- Embedding of `irc::proto::CapSubCommand` (only the variants the code
uses are needed). -/
inductive CapSubCommand where
  | LS
  | ACK
  | REQ
  deriving DecidableEq, Repr

/-- Embedding of `irc::proto::Response` (only `RPL_WELCOME` is matched by
the code; every other response code is collapsed into `other`). -/
inductive Response where
  | RPL_WELCOME
  | other (code : Nat)
  deriving DecidableEq, Repr

/-- Embedding of `irc::proto::Command`, restricted to the constructors the
repository builds or matches on: `PASS`, `NICK`, `JOIN`, `PART`, `PING`,
`PONG`, `CAP` and numeric responses. -/
inductive Command where
  | PASS (password : String)
  | NICK (nickname : String)
  | JOIN (chanlist : String) (chankeys : Option String) (realname : Option String)
  | PART (chanlist : String) (comment : Option String)
  | PING (server1 : String) (server2 : Option String)
  | PONG (server1 : String) (server2 : Option String)
  | CAP (target : Option String) (sub : CapSubCommand) (arg : Option String)
        (param : Option String)
  | Response (resp : Response) (args : List String)
  deriving DecidableEq, Repr

/-- Per-session orchestration state.  Boolean fields mirror the presence of
the corresponding component on the bevy entity (`Connecting`, `Sender`,
`Stream`, `Identifying`, `Registered`); `pingObservers` counts how many
times `connect` has executed `entity.observe(on_ping)` for this entity
(each call spawns one more observer); the remaining fields mirror the
`Auth`, `Channels` and `Capabilities` components. -/
structure Session where
  connecting : Bool
  hasSender : Bool
  hasStream : Bool
  identifying : Bool
  registered : Bool
  pingObservers : Nat
  nick : String
  pass : Option String
  channels : List String
  caps : List String
  deriving DecidableEq, Repr

/-- Query filter of `systems::connect`:
`(Without<Connecting>, Or<(Without<Sender>, Without<Stream>)>)`. -/
def connectEligible (s : Session) : Bool :=
  !s.connecting && (!s.hasSender || !s.hasStream)

/-- `systems::connect` (src/src/systems.rs lines 13-31): for every matching
entity it inserts a fresh `Connecting` future, removes `Registered`, and
registers the `on_ping`/`on_welcome` observers (one more each call). -/
def connect (s : Session) : Session :=
  if connectEligible s then
    { s with connecting := true, registered := false,
             pingObservers := s.pingObservers + 1 }
  else s

/-- `systems::poll_connecting`, case where the connect future resolves
`Ok(client)`: removes `Connecting`, inserts `Sender` and `Stream`
together. -/
def pollConnectingOk (s : Session) : Session :=
  if s.connecting then
    { s with connecting := false, hasSender := true, hasStream := true }
  else s

/-- `systems::poll_connecting`, case where the connect future resolves
`Err(e)`: removes `Connecting` and nothing else. -/
def pollConnectingErr (s : Session) : Session :=
  if s.connecting then { s with connecting := false } else s

/-- The outbound dispatcher `systems::send` / `observers::send`: look up
the session's `Sender`; if absent, log and return (no side effect); if
present, attempt the send, and on failure remove the `Sender` component.
`sendOk c` stands for whether the underlying `sender.send(c)` succeeds;
the returned boolean is whether the command was enqueued. -/
def send (sendOk : Command → Bool) (s : Session) (c : Command) : Session × Bool :=
  if s.hasSender then
    if sendOk c then (s, true)
    else ({ s with hasSender := false }, false)
  else (s, false)

/-- The body of the `on_ping` observer (src/src/systems.rs lines 76-84):
on `PING(srv, ..)` it triggers exactly one `Outgoing(PONG(srv, None))`;
any other command triggers nothing. -/
def on_ping (c : Command) : List Command :=
  match c with
  | Command.PING srv _ => [Command.PONG srv none]
  | _ => []

/-- Delivery of one `Incoming<Command>` trigger to the entity: bevy runs
every observer registered for the entity, and `connect` has registered
`on_ping` once per execution, so the reaction of `on_ping` is replicated
`pingObservers` times. -/
def deliverIncoming (s : Session) (c : Command) : List Command :=
  (List.replicate s.pingObservers (on_ping c)).flatten

/-- The `on_welcome` observer (src/src/systems.rs lines 86-95): on
`Response(RPL_WELCOME, ..)` it removes `Identifying` and inserts
`Registered`, with no check of the session's current phase; any other
command leaves the session unchanged. -/
def on_welcome (s : Session) (c : Command) : Session :=
  match c with
  | Command.Response Response.RPL_WELCOME _ =>
      { s with identifying := false, registered := true }
  | _ => s

/-- Query filter of `systems::identify`:
`(With<Sender>, Without<Registered>, Without<Identifying>)`. -/
def identifyEligible (s : Session) : Bool :=
  s.hasSender && !s.registered && !s.identifying

/-- `systems::identify` (src/src/systems.rs lines 112-124): for every
eligible session it inserts `Identifying`, then triggers
`Outgoing(PASS(pass))` when a password is configured, then
`Outgoing(NICK(nick))`.  The `Identifying` insertion is queued before the
sends and does not depend on their outcome. -/
def identify (s : Session) : Session × List Command :=
  if identifyEligible s then
    ({ s with identifying := true },
      (match s.pass with
       | some p => [Command.PASS p]
       | none => []) ++ [Command.NICK s.nick])
  else (s, [])

/-- One tick of the handshake driver together with the outbound
dispatcher: run `identify`, then let the `send` observer process each
triggered command in order. -/
def identifyTick (sendOk : Command → Bool) (s : Session) : Session :=
  (identify s).2.foldl (fun t c => (send sendOk t c).1) (identify s).1

/-- `systems::join_channels` (src/src/systems.rs lines 126-140): when the
session is `Registered` and the change-detection filter
`Or<(Added<Registered>, Changed<Channels>)>` fires (`trigger`), it emits
one `JOIN` for every channel in `Channels`, consulting no observed
state. -/
def join_channels (s : Session) (trigger : Bool) : List Command :=
  if s.registered && trigger then
    s.channels.map (fun c => Command.JOIN c none none)
  else []

/-- `systems::request_capabilities` (src/src/systems.rs lines 142-164):
under the same trigger condition it emits a single
`CAP(None, REQ, None, Some(caps))` whose payload is the space-joined list
of desired capability names. -/
def request_capabilities (s : Session) (trigger : Bool) : List Command :=
  if s.registered && trigger then
    [Command.CAP none CapSubCommand.REQ none
      (some (String.intercalate " " s.caps))]
  else []

/-- One item yielded by polling the client stream inside a tick. -/
inductive StreamItem where
  | msg (c : Command)
  | errItem
  | ended
  deriving DecidableEq, Repr

/-- Loop body of `systems::poll_stream` (src/src/systems.rs lines
166-193): drain the ready items; a parsed message is forwarded as an
`Incoming` trigger; `None` (stream ended) or `Some(Err(_))` removes the
`Stream` component (and only the `Stream` component) and stops. -/
def pollStreamLoop : Session → List StreamItem → Session × List Command
  | s, [] => (s, [])
  | s, StreamItem.ended :: _ => ({ s with hasStream := false }, [])
  | s, StreamItem.errItem :: _ => ({ s with hasStream := false }, [])
  | s, StreamItem.msg c :: rest =>
      let r := pollStreamLoop s rest
      (r.1, c :: r.2)

/-- `systems::poll_stream` runs only over entities that have a `Stream`
component. -/
def poll_stream (s : Session) (items : List StreamItem) : Session × List Command :=
  if s.hasStream then pollStreamLoop s items else (s, [])

/-- Keepalive threshold: `elapsed_secs() < 600.0`, in milliseconds. -/
def pingThresholdMs : Nat := 600000

/-- `systems::ping` (src/src/systems.rs lines 97-110) over the list of
`(entity, Pinger)` pairs the query yields, durations in milliseconds.
Each pinger's stopwatch is ticked by the frame delta; if the elapsed time
is below the threshold the system executes `return` — not `continue` — so
every later pinger in the iteration is left untouched; otherwise it emits
`PING("", None)` targeted at the entity and resets the stopwatch. -/
def ping : Nat → List (Nat × Nat) → List (Nat × Nat) × List (Nat × Command)
  | _, [] => ([], [])
  | delta, (i, t) :: rest =>
    if t + delta < pingThresholdMs then
      ((i, t + delta) :: rest, [])
    else
      let r := ping delta rest
      ((i, 0) :: r.1, (i, Command.PING "" none) :: r.2)

/-- `join_and_part` from the older generation (src/src/lib.rs lines
231-262): `current` is the snapshot from `client.list_channels()`; it
joins exactly the desired channels not currently joined and parts exactly
the currently joined channels not desired, joins first. -/
def join_and_part (desired observed : List String) : List Command :=
  (desired.filter (fun c => !observed.contains c)).map
      (fun c => Command.JOIN c none none)
  ++ (observed.filter (fun c => !desired.contains c)).map
      (fun c => Command.PART c none)

/-- `identify` from the older generation (src/src/lib.rs lines 211-229):
for a session without `Identified`, send `PASS` when a password is
configured and `continue` (skipping `NICK` and the `Identified` insert) if
that send fails; then send `NICK` and `continue` if it fails; only after
both sends succeed insert `Identified`.  Returns the new `Identified`
flag and the commands attempted. -/
def lib_identify (sendOk : Command → Bool) (identified : Bool)
    (nick : String) (pass : Option String) : Bool × List Command :=
  if identified then (true, [])
  else
    match pass with
    | some p =>
        if sendOk (Command.PASS p) then
          if sendOk (Command.NICK nick) then
            (true, [Command.PASS p, Command.NICK nick])
          else (false, [Command.PASS p, Command.NICK nick])
        else (false, [Command.PASS p])
    | none =>
        if sendOk (Command.NICK nick) then (true, [Command.NICK nick])
        else (false, [Command.NICK nick])

/-- A concrete registered session with both `Sender` and `Stream`
present, used to evaluate the systems at concrete inputs. -/
def regSession : Session :=
  { connecting := false, hasSender := true, hasStream := true,
    identifying := false, registered := true, pingObservers := 1,
    nick := "bevy", pass := none, channels := ["#a"], caps := [] }

/-- A concrete freshly-declared session: only the declarative components
(`Connection`, `Auth`, `Channels`, `Capabilities`) are present. -/
def freshSession : Session :=
  { connecting := false, hasSender := false, hasStream := false,
    identifying := false, registered := false, pingObservers := 0,
    nick := "bevy", pass := some "hunter2", channels := ["#a"], caps := [] }

/-- A concrete session in the awaiting-handshake phase: `Sender` and
`Stream` present, neither `Identifying` nor `Registered`. -/
def awaitSession : Session :=
  { connecting := false, hasSender := true, hasStream := true,
    identifying := false, registered := false, pingObservers := 1,
    nick := "bevy", pass := some "hunter2", channels := ["#a"], caps := [] }

/-- A concrete registered session with two desired capabilities. -/
def capsSession : Session :=
  { connecting := false, hasSender := true, hasStream := true,
    identifying := false, registered := true, pingObservers := 1,
    nick := "bevy", pass := none, channels := [],
    caps := ["away-notify", "server-time"] }

/-- A concrete session currently in the `Identifying` phase. -/
def identSession : Session :=
  { awaitSession with identifying := true }

/-! Helper lemmas shared by several claim theorems. -/

/-- The outbound dispatcher only ever touches the `hasSender` field. -/
theorem send_preserves_other_fields (f : Command → Bool) (s : Session) (c : Command) :
    (send f s c).1.identifying = s.identifying
  ∧ (send f s c).1.registered = s.registered
  ∧ (send f s c).1.hasStream = s.hasStream := by
  unfold send
  by_cases h1 : s.hasSender = true <;> by_cases h2 : f c = true <;>
    simp [h1, h2]

/-- Folding the dispatcher over a command list preserves `identifying`. -/
theorem sendFold_identifying (f : Command → Bool) (cmds : List Command) (t : Session) :
    (cmds.foldl (fun u c => (send f u c).1) t).identifying = t.identifying := by
  induction cmds generalizing t with
  | nil => rfl
  | cons c rest ih =>
      rw [List.foldl_cons, ih]
      exact (send_preserves_other_fields f t c).1

/-- The stream-draining loop only ever touches the `hasStream` field. -/
theorem pollStreamLoop_preserves (s : Session) (items : List StreamItem) :
    (pollStreamLoop s items).1.hasSender = s.hasSender
  ∧ (pollStreamLoop s items).1.registered = s.registered
  ∧ (pollStreamLoop s items).1.identifying = s.identifying := by
  induction items with
  | nil => exact ⟨rfl, rfl, rfl⟩
  | cons it rest ih =>
      cases it with
      | msg c => simpa [pollStreamLoop] using ih
      | errItem => simp [pollStreamLoop]
      | ended => simp [pollStreamLoop]

/-! Claim C3: keepalive independence across sessions. -/

/-- Claim C3: the claim says every session's keepalive timer is advanced by
the tick's elapsed duration independently of other sessions.  The code
uses `return` instead of `continue` in the `ping` loop, so a session whose
timer is below the threshold stops the whole system: here session 2 has
599.5 s accumulated and a 1 s tick should push it over the 600 s threshold,
yet it is neither advanced nor pinged because session 1 (at 0 s) is
processed first. -/
theorem ping_early_return_skips_later_sessions :
    ping 1000 [(1, 0), (2, 599500)] = ([(1, 1000), (2, 599500)], []) := by
  decide

/-! Claim C4: single-session keepalive threshold. -/

/-- Claim C4: for a single session with accumulated idle time `t` and a
tick of duration `d` (milliseconds), the system emits `PING("", None)` and
resets the stopwatch exactly when `t + d` reaches the 600 s threshold, and
otherwise just advances the stopwatch. -/
theorem ping_single_session_threshold (i t d : Nat) :
    (ping d [(i, t)] = ([(i, 0)], [(i, Command.PING "" none)])
        ↔ pingThresholdMs ≤ t + d)
  ∧ (ping d [(i, t)] = ([(i, t + d)], []) ↔ t + d < pingThresholdMs) := by
  by_cases h : t + d < pingThresholdMs <;>
    simp [ping, h, Nat.not_lt.mp, Nat.not_le.mpr]

/-! Claim C8: capability requests are batched into one command. -/

/-- Claim C8: whenever the capability reconciler fires (session registered
and the `Added<Registered>`/`Changed<Capabilities>` filter matched), it
emits exactly one `CAP REQ` command whose payload is the space-joined list
of all desired capability names; it never emits more than one command, and
every command it ever emits is that single batched request. -/
theorem request_capabilities_single_batched (s : Session) (t : Bool) :
    (request_capabilities s t).length ≤ 1
  ∧ (s.registered = true → t = true →
      request_capabilities s t
        = [Command.CAP none CapSubCommand.REQ none
            (some (String.intercalate " " s.caps))])
  ∧ (∀ c ∈ request_capabilities s t,
      c = Command.CAP none CapSubCommand.REQ none
            (some (String.intercalate " " s.caps))) := by
  unfold request_capabilities
  by_cases h1 : s.registered = true <;> by_cases h2 : t = true <;>
    simp [h1, h2]

/-- Witness for C8: a registered session desiring `away-notify` and
`server-time` gets exactly the single batched request. -/
theorem request_capabilities_single_batched_witness :
    capsSession.registered = true
  ∧ request_capabilities capsSession true
      = [Command.CAP none CapSubCommand.REQ none
          (some (String.intercalate " " capsSession.caps))] :=
  ⟨rfl, (request_capabilities_single_batched capsSession true).2.1 rfl rfl⟩

/-! Claim C9: the outbound dispatcher. -/

/-- Claim C9: the dispatcher leaves the session unchanged except that the
sender survives exactly when it was present and the enqueue succeeded
(absent sender: failure reported, no side effect; enqueue failure: sender
dropped; success: no further effect), and reports success exactly when the
sender was present and the enqueue succeeded. -/
theorem send_dispatch_characterization (f : Command → Bool) (s : Session) (c : Command) :
    (send f s c).1 = { s with hasSender := s.hasSender && f c }
  ∧ (send f s c).2 = (s.hasSender && f c)
  ∧ (s.hasSender = false → (send f s c).1 = s) := by
  obtain ⟨cn, hsnd, hstr, idf, reg, po, nk, pw, ch, cp⟩ := s
  cases hsnd <;> by_cases hf : f c = true <;> simp [send, hf]

/-- Witness for C9: dispatching to the fresh session (no sender) has no
side effect. -/
theorem send_dispatch_characterization_witness :
    freshSession.hasSender = false
  ∧ (send (fun _ => true) freshSession (Command.NICK "bevy")).1 = freshSession :=
  ⟨rfl, (send_dispatch_characterization (fun _ => true) freshSession
          (Command.NICK "bevy")).2.2 rfl⟩

/-! Claim C7: one pong per server ping. -/

/-- Claim C7: the claim says each server `PING` yields exactly one `PONG`.
The `on_ping` handler itself does emit exactly one echoing pong, but
`connect` registers a fresh `on_ping` observer on the entity every time it
runs, and it runs again whenever the sender or stream is missing.  After a
session connects, loses its sender to a send failure and reconnects, two
observers are registered, so one incoming `PING("srv")` produces two
pongs. -/
theorem reconnect_duplicates_pong :
    on_ping (Command.PING "srv" none) = [Command.PONG "srv" none]
  ∧ deliverIncoming
      (pollConnectingOk (connect
        (send (fun _ => false) (pollConnectingOk (connect freshSession))
          (Command.NICK "bevy")).1))
      (Command.PING "srv" none)
      = [Command.PONG "srv" none, Command.PONG "srv" none] := by
  decide

/-! Claim C1: channel reconciliation as a minimal delta. -/

/-- Counterexample to claim C1: the claim says no join is emitted for a
channel that is both desired and observed joined.  The current-generation
reconciler `join_channels` consults no observed state at all: with
`regSession` desiring only `"#a"` and the server already reporting
`"#a"` joined, it still emits `JOIN #a`. -/
theorem join_channels_rejoins_observed_channel :
    "#a" ∈ ["#a"]
  ∧ regSession.channels = ["#a"]
  ∧ join_channels regSession true = [Command.JOIN "#a" none none] := by
  decide

/-- Claim C1 (amended): the older-generation reconciler `join_and_part`
is the minimal delta the claim describes — it joins exactly
`desired − observed`, parts exactly `observed − desired`, and emits
nothing when the two sets coincide — while the current-generation
`join_channels` emits a join for every desired channel unconditionally,
ignoring the observed set. -/
theorem join_and_part_minimal_delta (desired observed : List String)
    (ch : String) (s : Session) :
    (Command.JOIN ch none none ∈ join_and_part desired observed
        ↔ ch ∈ desired ∧ ch ∉ observed)
  ∧ (Command.PART ch none ∈ join_and_part desired observed
        ↔ ch ∈ observed ∧ ch ∉ desired)
  ∧ ((∀ c, c ∈ desired ↔ c ∈ observed) → join_and_part desired observed = [])
  ∧ (s.registered = true →
      join_channels s true
        = s.channels.map (fun c => Command.JOIN c none none)) := by
  refine ⟨?_, ?_, ?_, ?_⟩
  · simp [join_and_part, List.mem_filter, List.contains]
  · simp [join_and_part, List.mem_filter, List.contains]
  · intro h
    simp [join_and_part, List.contains, List.filter_eq_nil_iff]
    exact ⟨fun c hc => (h c).mp hc, fun c hc => (h c).mpr hc⟩
  · intro h
    simp [join_channels, h]

/-- Witness for C1 (amended): desired `{"#b"}` against observed `{"#a"}`
emits `JOIN #b` and `PART #a`; identical sets emit nothing; the
registered `regSession` gets a join for each of its desired channels. -/
theorem join_and_part_minimal_delta_witness :
    Command.JOIN "#b" none none ∈ join_and_part ["#b"] ["#a"]
  ∧ Command.PART "#a" none ∈ join_and_part ["#b"] ["#a"]
  ∧ join_and_part ["#a"] ["#a"] = []
  ∧ join_channels regSession true
      = regSession.channels.map (fun c => Command.JOIN c none none) :=
  ⟨(join_and_part_minimal_delta ["#b"] ["#a"] "#b" regSession).1.mpr
      (by decide),
   (join_and_part_minimal_delta ["#b"] ["#a"] "#a" regSession).2.1.mpr
      (by decide),
   (join_and_part_minimal_delta ["#a"] ["#a"] "#a" regSession).2.2.1
      (fun c => Iff.rfl),
   (join_and_part_minimal_delta ["#a"] ["#a"] "#a" regSession).2.2.2 rfl⟩

/-! Claim C2: sender and receiver presence. -/

/-- Counterexample to claim C2: the claim says sender and receiver are
always both present or both absent, and that a send failure on a
registered session drops both within the tick.  A failed send on
`regSession` removes only the `Sender`: the `Stream` and the `Registered`
marker survive, and even the subsequent `connect` pass (which begins the
reconnect) leaves the stream in place. -/
theorem send_failure_leaves_stream_present :
    (send (fun _ => false) regSession (Command.NICK "bevy")).1.hasSender = false
  ∧ (send (fun _ => false) regSession (Command.NICK "bevy")).1.hasStream = true
  ∧ (send (fun _ => false) regSession (Command.NICK "bevy")).1.registered = true
  ∧ (connect (send (fun _ => false) regSession
      (Command.NICK "bevy")).1).hasStream = true := by
  decide

/-- Claim C2 (amended): sender and stream are inserted together when a
connect resolves, but on failure they are dropped individually — a send
failure removes only the sender (stream and `Registered` untouched), and a
stream error or end-of-stream removes only the stream (sender untouched);
a session missing either one while not connecting is eligible for the
reconnect pass. -/
theorem sender_stream_drop_individually (s : Session) (f : Command → Bool)
    (c : Command) (items : List StreamItem) :
    (pollConnectingOk s).hasSender = (s.connecting || s.hasSender)
  ∧ (pollConnectingOk s).hasStream = (s.connecting || s.hasStream)
  ∧ (send f s c).1.hasStream = s.hasStream
  ∧ (send f s c).1.registered = s.registered
  ∧ (send f s c).1.hasSender = (s.hasSender && f c)
  ∧ (poll_stream s (StreamItem.errItem :: items)).1.hasSender = s.hasSender
  ∧ (poll_stream s (StreamItem.errItem :: items)).1.hasStream = false
  ∧ (poll_stream s (StreamItem.ended :: items)).1.hasSender = s.hasSender
  ∧ (poll_stream s (StreamItem.ended :: items)).1.hasStream = false
  ∧ connectEligible { s with hasSender := false, connecting := false } = true
  ∧ connectEligible { s with hasStream := false, connecting := false } = true := by
  obtain ⟨cn, hsnd, hstr, idf, reg, po, nk, pw, ch, cp⟩ := s
  cases cn <;> cases hsnd <;> cases hstr <;> by_cases hf : f c = true <;>
    simp [pollConnectingOk, send, poll_stream, pollStreamLoop,
      connectEligible, hf]

/-! Claim C5: handshake send failure and phase advancement. -/

/-- Counterexample to claim C5: the claim says a failed handshake send
leaves the phase unadvanced.  In the current generation, `identify`
inserts `Identifying` before triggering the sends, so even when every send
fails the session still ends the tick in the `Identifying` phase. -/
theorem identify_advances_despite_send_failure :
    identifyEligible awaitSession = true
  ∧ (identifyTick (fun _ => false) awaitSession).identifying = true
  ∧ (identifyTick (fun _ => false) awaitSession).hasSender = false := by
  decide

/-- Claim C5 (amended): in the current generation a handshake send failure
does not prevent the phase advance — the session becomes `Identifying`
regardless, and the failure is handled by the dispatcher dropping the
sender; in the older `lib.rs` generation the claim's behaviour holds: the
session is marked `Identified` only if the `NICK` send and any `PASS` send
succeeded. -/
theorem identify_failure_behaviour (s : Session) (g : Command → Bool)
    (nick : String) (pass : Option String)
    (h : identifyEligible s = true) :
    (identifyTick g s).identifying = true
  ∧ ((lib_identify g false nick pass).1 = true →
      g (Command.NICK nick) = true
        ∧ ∀ p, pass = some p → g (Command.PASS p) = true) := by
  constructor
  · unfold identifyTick
    rw [sendFold_identifying]
    unfold identify
    rw [if_pos h]
  · unfold lib_identify
    cases pass with
    | none =>
        by_cases hn : g (Command.NICK nick) = true <;> simp [hn]
    | some p =>
        by_cases hp : g (Command.PASS p) = true <;>
          by_cases hn : g (Command.NICK nick) = true <;> simp [hp, hn]

/-- Witness for C5 (amended): the awaiting-handshake session (all sends
succeeding) ends the tick `Identifying`, and the older generation marks a
session `Identified` only when its sends succeeded. -/
theorem identify_failure_behaviour_witness :
    identifyEligible awaitSession = true
  ∧ ((identifyTick (fun _ => true) awaitSession).identifying = true
      ∧ ((lib_identify (fun _ => true) false "bevy" (some "p")).1 = true →
          (fun _ => true) (Command.NICK "bevy") = true
            ∧ ∀ q, (some "p" : Option String) = some q →
                (fun _ => true) (Command.PASS q) = true)) :=
  ⟨by decide,
   identify_failure_behaviour awaitSession (fun _ => true) "bevy" (some "p")
     (by decide)⟩

/-! Claim C6: the handshake sequence. -/

/-- Claim C6: for an eligible session (sender present, neither registered
nor identifying), the handshake driver emits `PASS` exactly when a
password is configured, followed by `NICK`, in that order; the session
ends the pass in the `Identifying` phase and still unregistered, so the
channel and capability reconcilers (which require `Registered`) emit
nothing for it; a session already `Identifying` or `Registered` is not
attempted again. -/
theorem handshake_order_and_guard (s : Session) :
    (identifyEligible s = true →
        (s.pass = none → (identify s).2 = [Command.NICK s.nick])
      ∧ (∀ p, s.pass = some p →
          (identify s).2 = [Command.PASS p, Command.NICK s.nick])
      ∧ (identify s).1.identifying = true
      ∧ (identify s).1.registered = false
      ∧ (∀ t, join_channels (identify s).1 t = [])
      ∧ (∀ t, request_capabilities (identify s).1 t = []))
  ∧ (s.identifying = true ∨ s.registered = true → identify s = (s, [])) := by
  constructor
  · intro h
    have hreg : s.registered = false := by
      unfold identifyEligible at h
      cases hr : s.registered with
      | false => rfl
      | true => rw [hr] at h; simp at h
    refine ⟨?_, ?_, ?_, ?_, ?_, ?_⟩ <;>
      simp [identify, h, join_channels, request_capabilities, hreg]
    · intro hp; rw [hp]
    · intro p hp; rw [hp]; rfl
  · intro h
    have hne : identifyEligible s = false := by
      unfold identifyEligible
      rcases h with h | h <;> rw [h] <;> simp
    simp [identify, hne]

/-- Witness for C6: the awaiting session with a password gets `PASS` then
`NICK` and becomes `Identifying`; the already-identifying session is left
alone. -/
theorem handshake_order_and_guard_witness :
    identifyEligible awaitSession = true
  ∧ (identify awaitSession).2
      = [Command.PASS "hunter2", Command.NICK awaitSession.nick]
  ∧ (identify awaitSession).1.identifying = true
  ∧ identify identSession = (identSession, []) :=
  ⟨by decide,
   ((handshake_order_and_guard awaitSession).1 (by decide)).2.1 "hunter2" rfl,
   ((handshake_order_and_guard awaitSession).1 (by decide)).2.2.1,
   (handshake_order_and_guard identSession).2 (Or.inl rfl)⟩

/-! Claim C10: phase advancement to Registered. -/

/-- Counterexample to claim C10: the claim says a session cannot become
`Registered` without having passed through `Identifying`.  The
`on_welcome` observer checks no phase at all: `awaitSession` is in the
awaiting-handshake phase (not `Identifying`, not `Registered`), yet one
`RPL_WELCOME` makes it `Registered` directly. -/
theorem welcome_registers_without_identifying :
    awaitSession.identifying = false
  ∧ awaitSession.registered = false
  ∧ (on_welcome awaitSession
      (Command.Response Response.RPL_WELCOME [])).registered = true := by
  decide

/-- Claim C10 (amended): `on_welcome` is the sole operation that sets
`Registered` — every other system preserves or clears the marker — and on
`RPL_WELCOME` it sets `Registered` and clears `Identifying` regardless of
the session's current phase, so a session whose welcome arrives before the
handshake driver marked it `Identifying` skips that phase. -/
theorem registered_only_set_by_welcome (s : Session) (c : Command)
    (f : Command → Bool) (args : List String) (items : List StreamItem) :
    on_welcome s (Command.Response Response.RPL_WELCOME args)
      = { s with identifying := false, registered := true }
  ∧ (connect s).registered = (s.registered && !connectEligible s)
  ∧ (pollConnectingOk s).registered = s.registered
  ∧ (pollConnectingErr s).registered = s.registered
  ∧ (identify s).1.registered = s.registered
  ∧ (send f s c).1.registered = s.registered
  ∧ (poll_stream s items).1.registered = s.registered := by
  refine ⟨rfl, ?_, ?_, ?_, ?_, (send_preserves_other_fields f s c).2.1, ?_⟩
  · unfold connect
    by_cases h : connectEligible s = true <;> simp [h]
  · unfold pollConnectingOk
    by_cases h : s.connecting = true <;> simp [h]
  · unfold pollConnectingErr
    by_cases h : s.connecting = true <;> simp [h]
  · unfold identify
    by_cases h : identifyEligible s = true <;> simp [h]
  · unfold poll_stream
    by_cases h : s.hasStream = true <;>
      simp [h, (pollStreamLoop_preserves s items).2.1]

end BevyIrc
